import Mathlib

/-!
Verification of the link-name matchers of `src/find/matchers/lname.rs`
(`read_link_target`, `LinkNameMatcher`, `CaselessLinkNameMatcher`).

The matchers delegate wildcard compilation and matching to the external
`glob` crate and path-to-text conversion to the standard library; those
parts are modelled from the specification.  Everything else is a direct
shallow embedding of the Rust source: filesystem reads are represented by
the outcome recorded in the `DirEntry`, and the diagnostic written to the
error stream is returned explicitly as a list of lines.
-/

namespace LName

/-! ## Wildcard patterns (modelled from the spec) -/

/-- Modelled from the spec: one element of a compiled shell-wildcard
pattern — a literal character, `?` (exactly one character), `*` (any run
including the empty one), or a bracket character class, negated or not. -/
inductive Token where
  | lit : Char → Token
  | anyChar : Token
  | anySeq : Token
  | cls : Bool → List Char → Token
deriving DecidableEq

/-- Modelled from the spec: scanning the body of a bracket character class
(after the opening bracket and optional negation mark): returns the member
characters together with the input that follows the closing bracket, or
`none` when the class is unterminated. -/
def parseClassChars : List Char → Option (List Char × List Char)
  | [] => none
  | c :: rest =>
    if c = ']' then some ([], rest)
    else (parseClassChars rest).map (fun pr => (c :: pr.1, pr.2))

/-- Modelled from the spec: fuel-driven compilation of a wildcard string
into tokens.  `?`, `*` and `[` are special, every other character is a
literal; an unterminated class is a syntax error (`none`).  The fuel only
serves totality: one unit is spent per token and every token consumes at
least one input character, so any fuel above the input length is enough. -/
def parseTokensF : Nat → List Char → Option (List Token)
  | 0, _ => none
  | _ + 1, [] => some []
  | f + 1, c :: rest =>
    if c = '?' then (parseTokensF f rest).map (fun ts => Token.anyChar :: ts)
    else if c = '*' then (parseTokensF f rest).map (fun ts => Token.anySeq :: ts)
    else if c = '[' then
      match rest with
      | [] => none
      | c2 :: rest2 =>
        if c2 = '!' then
          match parseClassChars rest2 with
          | none => none
          | some pr => (parseTokensF f pr.2).map (fun ts => Token.cls true pr.1 :: ts)
        else
          match parseClassChars rest with
          | none => none
          | some pr => (parseTokensF f pr.2).map (fun ts => Token.cls false pr.1 :: ts)
    else (parseTokensF f rest).map (fun ts => Token.lit c :: ts)

/-- Modelled from the spec: a compiled wildcard pattern (the `glob`
crate's `Pattern`), immutable after construction. -/
structure Pattern where
  tokens : List Token
deriving DecidableEq

/-- Modelled from the spec: `Pattern::new` — compile a wildcard string,
failing (`none`, standing for `PatternError`) exactly on syntactically
invalid input such as an unterminated character class. -/
def Pattern.new (s : String) : Option Pattern :=
  (parseTokensF (s.data.length + 1) s.data).map Pattern.mk

/-- Modelled from the spec: fuel-driven full-string wildcard matching.
The whole character list must be consumed by the whole token list.  One
unit of fuel is spent per step and every step shortens the token list or
the character list, so any fuel above their combined length is enough. -/
def matchTokensF : Nat → List Token → List Char → Bool
  | 0, _, _ => false
  | _ + 1, [], [] => true
  | _ + 1, [], _ :: _ => false
  | f + 1, Token.lit c :: ts, cs =>
    match cs with
    | [] => false
    | c2 :: cs2 => c = c2 && matchTokensF f ts cs2
  | f + 1, Token.anyChar :: ts, cs =>
    match cs with
    | [] => false
    | _ :: cs2 => matchTokensF f ts cs2
  | f + 1, Token.anySeq :: ts, cs =>
    matchTokensF f ts cs ||
      (match cs with
       | [] => false
       | _ :: cs2 => matchTokensF f (Token.anySeq :: ts) cs2)
  | f + 1, Token.cls neg mem :: ts, cs =>
    match cs with
    | [] => false
    | c2 :: cs2 => (mem.contains c2 != neg) && matchTokensF f ts cs2

/-- Modelled from the spec: `Pattern::matches` — does the entire string
match the compiled pattern from start to end? -/
def Pattern.matches (p : Pattern) (s : String) : Bool :=
  matchTokensF (p.tokens.length + s.data.length + 1) p.tokens s.data

/-- Modelled from the spec: `str::to_lowercase`, as simple per-character
case folding. -/
def to_lowercase (s : String) : String :=
  String.mk (s.data.map Char.toLower)

/-! ## Paths and lossy text conversion (modelled from the spec) -/

/-- Modelled from the spec: a resolved link-target path is a raw byte
sequence, not necessarily valid in the native string encoding. -/
abbrev PathBuf := List UInt8

/-- Is the byte a UTF-8 continuation byte? -/
def isCont (b : UInt8) : Bool := 0x80 ≤ b && b ≤ 0xBF

/-- Admissible second byte of a multi-byte UTF-8 sequence headed by `b1`
(the ranges that exclude overlong encodings and surrogates). -/
def validSecond (b1 b2 : UInt8) : Bool :=
  if b1 = 0xE0 then 0xA0 ≤ b2 && b2 ≤ 0xBF
  else if b1 = 0xED then 0x80 ≤ b2 && b2 ≤ 0x9F
  else if b1 = 0xF0 then 0x90 ≤ b2 && b2 ≤ 0xBF
  else if b1 = 0xF4 then 0x80 ≤ b2 && b2 ≤ 0x8F
  else isCont b2

/-- The Unicode replacement character U+FFFD. -/
def repl : Char := Char.ofNat 0xFFFD

/-- Modelled from the spec: fuel-driven lossy UTF-8 decoding — every
maximal invalid subsequence becomes one replacement character, decoding
never fails.  One unit of fuel is spent per decoded character and each
consumes at least one byte, so fuel equal to the byte count is enough. -/
def utf8LossyF : Nat → List UInt8 → List Char
  | 0, _ => []
  | _ + 1, [] => []
  | f + 1, b1 :: rest =>
    if b1 ≤ 0x7F then Char.ofNat b1.toNat :: utf8LossyF f rest
    else if 0xC2 ≤ b1 && b1 ≤ 0xDF then
      match rest with
      | [] => [repl]
      | b2 :: rest2 =>
        if isCont b2 then
          Char.ofNat ((b1.toNat - 0xC0) * 64 + (b2.toNat - 0x80)) :: utf8LossyF f rest2
        else repl :: utf8LossyF f rest
    else if 0xE0 ≤ b1 && b1 ≤ 0xEF then
      match rest with
      | [] => [repl]
      | b2 :: rest2 =>
        if validSecond b1 b2 then
          match rest2 with
          | [] => [repl]
          | b3 :: rest3 =>
            if isCont b3 then
              Char.ofNat ((b1.toNat - 0xE0) * 4096 + (b2.toNat - 0x80) * 64 +
                (b3.toNat - 0x80)) :: utf8LossyF f rest3
            else repl :: utf8LossyF f rest2
        else repl :: utf8LossyF f rest
    else if 0xF0 ≤ b1 && b1 ≤ 0xF4 then
      match rest with
      | [] => [repl]
      | b2 :: rest2 =>
        if validSecond b1 b2 then
          match rest2 with
          | [] => [repl]
          | b3 :: rest3 =>
            if isCont b3 then
              match rest3 with
              | [] => [repl]
              | b4 :: rest4 =>
                if isCont b4 then
                  Char.ofNat ((b1.toNat - 0xF0) * 262144 + (b2.toNat - 0x80) * 4096 +
                    (b3.toNat - 0x80) * 64 + (b4.toNat - 0x80)) :: utf8LossyF f rest4
                else repl :: utf8LossyF f rest3
            else repl :: utf8LossyF f rest2
        else repl :: utf8LossyF f rest
      else repl :: utf8LossyF f rest

/-- Modelled from the spec: `Path::to_string_lossy` — total conversion of
a raw path to text, replacing invalid byte sequences. -/
def to_string_lossy (p : PathBuf) : String :=
  String.mk (utf8LossyF p.length p)

/-! ## Filesystem entries and the evaluation context -/

/-- The distinction the resolver draws among OS error kinds:
`invalidInput` is the condition meaning "not a symlink"; the remaining
constructors stand for every other kind of read failure. -/
inductive ErrorKind where
  | invalidInput
  | permissionDenied
  | notFound
  | other
deriving DecidableEq

/-- An OS error as the resolver sees it: its kind and its rendered
detail text. -/
structure IOError where
  kind : ErrorKind
  msg : String
deriving DecidableEq

/-- A filesystem entry visited during traversal: its displayable path and
the outcome the `read_link` syscall yields for it (the snapshot under
which one evaluation runs). -/
structure DirEntry where
  path : String
  readLink : Except IOError PathBuf

/-- Modelled from the spec: the evaluation context handed to every
matcher, "an opaque bag of shared traversal-wide facilities" that these
two matchers accept but never use. -/
structure MatcherIO where
  state : Nat
deriving DecidableEq

/-! ## The resolver and the two matchers (from the source) -/

/-- Try to read the entry as a symlink.  On success the raw target is
returned; on failure `none` is returned and, unless the error kind is
`InvalidInput` (the entry is simply not a symlink), a diagnostic line is
written to the error stream.  The second component is the list of lines
written. -/
def read_link_target (file_info : DirEntry) : Option PathBuf × List String :=
  match file_info.readLink with
  | Except.ok target => (some target, [])
  | Except.error e =>
    if e.kind ≠ ErrorKind.invalidInput then
      (none, ["Error reading target of " ++ file_info.path ++ ": " ++ e.msg])
    else
      (none, [])

/-- Case-sensitive comparison of the link target against a shell wildcard
pattern. -/
structure LinkNameMatcher where
  pattern : Pattern
deriving DecidableEq

def LinkNameMatcher.new (pattern_string : String) : Option LinkNameMatcher :=
  (Pattern.new pattern_string).map (fun p => LinkNameMatcher.mk p)

/-- The boolean verdict of the case-sensitive matcher together with the
diagnostic lines written while resolving the target. -/
def LinkNameMatcher.matches (self : LinkNameMatcher) (file_info : DirEntry)
    ( _ : MatcherIO) : Bool × List String :=
  match read_link_target file_info with
  | (some target, out) => (self.pattern.matches (to_string_lossy target), out)
  | (none, out) => (false, out)

/-- Case-insensitive comparison of the link target against a shell
wildcard pattern. -/
structure CaselessLinkNameMatcher where
  pattern : Pattern
deriving DecidableEq

def CaselessLinkNameMatcher.new (pattern_string : String) :
    Option CaselessLinkNameMatcher :=
  (Pattern.new (to_lowercase pattern_string)).map
    (fun p => CaselessLinkNameMatcher.mk p)

/-- The boolean verdict of the case-insensitive matcher together with the
diagnostic lines written while resolving the target. -/
def CaselessLinkNameMatcher.matches (self : CaselessLinkNameMatcher)
    (file_info : DirEntry) ( _ : MatcherIO) : Bool × List String :=
  match read_link_target file_info with
  | (some target, out) =>
    (self.pattern.matches (to_lowercase (to_string_lossy target)), out)
  | (none, out) => (false, out)

/-! ## Concrete entries used by the examples and witnesses -/

/-- A symlink entry whose target reads back as the bytes of `abbbc`. -/
def linkEntry : DirEntry :=
  { path := "test_data/links/link-f"
    readLink := Except.ok [0x61, 0x62, 0x62, 0x62, 0x63] }

/-- An entry that is not a symlink: reading it fails with the OS
condition meaning "not a symlink". -/
def regularEntry : DirEntry :=
  { path := "test_data/links/regular_file"
    readLink := Except.error { kind := ErrorKind.invalidInput, msg := "invalid input" } }

/-- An entry whose link read fails with a genuine error. -/
def deniedEntry : DirEntry :=
  { path := "test_data/links/secret"
    readLink := Except.error { kind := ErrorKind.permissionDenied, msg := "permission denied" } }

/-- A symlink entry whose target is a single byte that is invalid
UTF-8. -/
def badBytesEntry : DirEntry :=
  { path := "test_data/links/bad-bytes"
    readLink := Except.ok [0xFF] }

/-- A symlink entry whose target reads back as the bytes of `abcd`. -/
def abcdEntry : DirEntry :=
  { path := "test_data/links/abcd"
    readLink := Except.ok [0x61, 0x62, 0x63, 0x64] }

/-- A symlink entry whose target reads back as the bytes of `xabc`. -/
def xabcEntry : DirEntry :=
  { path := "test_data/links/xabc"
    readLink := Except.ok [0x78, 0x61, 0x62, 0x63] }

/-- One arbitrary evaluation context. -/
def ctx : MatcherIO := { state := 0 }

/-- A second, different evaluation context. -/
def ctx2 : MatcherIO := { state := 1 }

/-! ## Helper lemmas -/

theorem opt_isSome_map {α β : Type} (f : α → β) (o : Option α) :
    (o.map f).isSome = o.isSome := by
  cases o <;> rfl

theorem char_eq_iff_toNat (c d : Char) : c = d ↔ c.toNat = d.toNat := by
  constructor
  · intro h; rw [h]
  · intro h
    exact Char.ext (UInt32.toNat.inj h)

theorem toLower_toNat (c : Char) :
    c.toLower.toNat = if 65 ≤ c.toNat ∧ c.toNat ≤ 90 then c.toNat + 32 else c.toNat := by
  unfold Char.toLower
  split
  · next h =>
    rw [if_pos h]
    have hv : Nat.isValidChar (c.toNat + 32) := Or.inl (by omega)
    rw [Char.ofNat, dif_pos hv]
    rfl
  · next h =>
    rw [if_neg h]

/-- Case folding fixes every character outside the letter ranges, and in
particular never produces or consumes a wildcard metacharacter. -/
theorem toLower_eq_special (c x : Char) (h65 : x.toNat < 65 ∨ 90 < x.toNat)
    (h97 : x.toNat < 97 ∨ 122 < x.toNat) :
    (Char.toLower c = x) ↔ (c = x) := by
  rw [char_eq_iff_toNat, char_eq_iff_toNat, toLower_toNat]
  split
  · next h =>
    constructor <;> intro h2 <;> omega
  · next h => exact Iff.rfl

theorem toLower_eq_qmark (c : Char) : (Char.toLower c = '?') ↔ (c = '?') :=
  toLower_eq_special c '?' (by decide) (by decide)

theorem toLower_eq_star (c : Char) : (Char.toLower c = '*') ↔ (c = '*') :=
  toLower_eq_special c '*' (by decide) (by decide)

theorem toLower_eq_lbracket (c : Char) : (Char.toLower c = '[') ↔ (c = '[') :=
  toLower_eq_special c '[' (by decide) (by decide)

theorem toLower_eq_rbracket (c : Char) : (Char.toLower c = ']') ↔ (c = ']') :=
  toLower_eq_special c ']' (by decide) (by decide)

theorem toLower_eq_bang (c : Char) : (Char.toLower c = '!') ↔ (c = '!') :=
  toLower_eq_special c '!' (by decide) (by decide)

/-- Scanning a character class commutes with case folding. -/
theorem parseClassChars_toLower (l : List Char) :
    parseClassChars (l.map Char.toLower) =
      (parseClassChars l).map
        (fun pr => (pr.1.map Char.toLower, pr.2.map Char.toLower)) := by
  induction l with
  | nil => rfl
  | cons c rest ih =>
    simp only [List.map_cons, parseClassChars, toLower_eq_rbracket]
    by_cases hc : c = ']'
    · rw [if_pos hc, if_pos hc]
      simp
    · rw [if_neg hc, if_neg hc, ih]
      cases parseClassChars rest <;> simp

/-- Wildcard compilation succeeds on a case-folded string exactly when it
succeeds on the original string. -/
theorem parseTokensF_toLower_isSome (f : Nat) :
    ∀ l : List Char,
      (parseTokensF f (l.map Char.toLower)).isSome = (parseTokensF f l).isSome := by
  induction f with
  | zero => intro l; rfl
  | succ f ih =>
    intro l
    cases l with
    | nil => rfl
    | cons c rest =>
      simp only [List.map_cons, parseTokensF, toLower_eq_qmark, toLower_eq_star,
        toLower_eq_lbracket]
      by_cases h1 : c = '?'
      · rw [if_pos h1, if_pos h1, opt_isSome_map, opt_isSome_map, ih]
      rw [if_neg h1, if_neg h1]
      by_cases h2 : c = '*'
      · rw [if_pos h2, if_pos h2, opt_isSome_map, opt_isSome_map, ih]
      rw [if_neg h2, if_neg h2]
      by_cases h3 : c = '['
      · rw [if_pos h3, if_pos h3]
        cases rest with
        | nil => rfl
        | cons c2 rest2 =>
          simp only [List.map_cons, toLower_eq_bang]
          by_cases h4 : c2 = '!'
          · rw [if_pos h4, if_pos h4, parseClassChars_toLower]
            cases parseClassChars rest2 with
            | none => rfl
            | some pr => simp [opt_isSome_map, ih]
          · rw [if_neg h4, if_neg h4]
            rw [show Char.toLower c2 :: List.map Char.toLower rest2 =
              List.map Char.toLower (c2 :: rest2) from rfl]
            rw [parseClassChars_toLower]
            cases parseClassChars (c2 :: rest2) with
            | none => rfl
            | some pr => simp [opt_isSome_map, ih]
      · rw [if_neg h3, if_neg h3, opt_isSome_map, opt_isSome_map, ih]

/-- Caseless construction succeeds exactly when compiling the pattern as
typed succeeds. -/
theorem caseless_new_isSome (p : String) :
    (CaselessLinkNameMatcher.new p).isSome = (Pattern.new p).isSome := by
  show ((Pattern.new (to_lowercase p)).map _).isSome = _
  rw [opt_isSome_map]
  show ((parseTokensF ((p.data.map Char.toLower).length + 1)
    (p.data.map Char.toLower)).map Pattern.mk).isSome = _
  rw [opt_isSome_map, List.length_map, parseTokensF_toLower_isSome]
  show _ = ((parseTokensF (p.data.length + 1) p.data).map Pattern.mk).isSome
  rw [opt_isSome_map]

/-! ## Claims -/

/-- C1: `read_link_target` returns the target exactly when the underlying
link read succeeds; on any failure it returns no target instead of
propagating an error, and it writes a diagnostic line holding the entry's
path and the error detail to the error stream if and only if the failure
kind differs from the OS condition meaning "not a symlink". -/
theorem c1_read_link_target_contract (e : DirEntry) :
    (∀ t : PathBuf, (read_link_target e).fst = some t ↔ e.readLink = Except.ok t) ∧
    (∀ er : IOError, e.readLink = Except.error er →
      (read_link_target e).fst = none ∧
      (er.kind ≠ ErrorKind.invalidInput →
        (read_link_target e).snd =
          ["Error reading target of " ++ e.path ++ ": " ++ er.msg]) ∧
      (er.kind = ErrorKind.invalidInput → (read_link_target e).snd = [])) := by
  refine ⟨?_, ?_⟩
  · intro t
    cases he : e.readLink with
    | ok t2 => simp [read_link_target, he]
    | error er =>
      by_cases hk : er.kind = ErrorKind.invalidInput <;>
        simp [read_link_target, he, hk]
  · intro er he
    by_cases hk : er.kind = ErrorKind.invalidInput <;>
      simp [read_link_target, he, hk]

/-- Witness for C1, on an entry whose link read fails with a permission
error: no target, and exactly the documented diagnostic line. -/
theorem c1_read_link_target_contract_witness :
    (read_link_target deniedEntry).fst = none ∧
    (read_link_target deniedEntry).snd =
      ["Error reading target of test_data/links/secret: permission denied"] := by
  have h := (c1_read_link_target_contract deniedEntry).2
    (IOError.mk ErrorKind.permissionDenied "permission denied") rfl
  exact ⟨h.1, h.2.1 (by decide)⟩

/-- C2: whenever the resolver yields no target — in particular for every
entry that is not a symbolic link — both matcher variants return false,
whatever pattern they were constructed with. -/
theorem c2_no_target_never_matches (m : LinkNameMatcher)
    (cm : CaselessLinkNameMatcher) (e : DirEntry) (io1 : MatcherIO)
    (h : (read_link_target e).fst = none) :
    (m.matches e io1).fst = false ∧ (cm.matches e io1).fst = false := by
  cases hr : read_link_target e with
  | mk o out =>
    rw [hr] at h
    simp only at h
    subst h
    simp [LinkNameMatcher.matches, CaselessLinkNameMatcher.matches, hr]

/-- Witness for C2, on a non-symlink entry with a match-everything
pattern. -/
theorem c2_no_target_never_matches_witness :
    ((LinkNameMatcher.mk (Pattern.mk [Token.anySeq])).matches regularEntry ctx).fst
      = false ∧
    ((CaselessLinkNameMatcher.mk (Pattern.mk [Token.anySeq])).matches regularEntry
      ctx).fst = false :=
  c2_no_target_never_matches (LinkNameMatcher.mk (Pattern.mk [Token.anySeq]))
    (CaselessLinkNameMatcher.mk (Pattern.mk [Token.anySeq])) regularEntry ctx
    (by decide)

/-- C3: case-sensitive full-string wildcard semantics: on a symlink with
target `abbbc` the pattern `ab?bc` matches and `AB?BC` does not, and the
pattern `abc` matches neither `abcd` nor `xabc` — the whole target must
match the pattern from start to end. -/
theorem c3_case_sensitive_semantics :
    (LinkNameMatcher.new "ab?bc").map (fun m => (m.matches linkEntry ctx).fst)
      = some true ∧
    (LinkNameMatcher.new "AB?BC").map (fun m => (m.matches linkEntry ctx).fst)
      = some false ∧
    (LinkNameMatcher.new "abc").map (fun m => (m.matches abcdEntry ctx).fst)
      = some false ∧
    (LinkNameMatcher.new "abc").map (fun m => (m.matches xabcEntry ctx).fst)
      = some false ∧
    (Pattern.new "abc").map (fun p => p.matches "abcd") = some false ∧
    (Pattern.new "abc").map (fun p => p.matches "xabc") = some false := by
  decide

/-- C4: the caseless matcher compiles the lowercased pattern at
construction and lowercases the resolved target's text on every
evaluation, so pattern case is irrelevant: on the `abbbc` symlink both
`AbB?c` and `abb?c` match. -/
theorem c4_caseless_normalization :
    (∀ p : String, CaselessLinkNameMatcher.new p =
      (Pattern.new (to_lowercase p)).map
        (fun q => CaselessLinkNameMatcher.mk q)) ∧
    (∀ (cm : CaselessLinkNameMatcher) (e : DirEntry) (t : PathBuf)
      (io1 : MatcherIO), e.readLink = Except.ok t →
      (cm.matches e io1).fst =
        cm.pattern.matches (to_lowercase (to_string_lossy t))) ∧
    (CaselessLinkNameMatcher.new "AbB?c").map
      (fun m => (m.matches linkEntry ctx).fst) = some true ∧
    (CaselessLinkNameMatcher.new "abb?c").map
      (fun m => (m.matches linkEntry ctx).fst) = some true := by
  refine ⟨fun p => rfl, ?_, by decide, by decide⟩
  intro cm e t io1 h
  simp [CaselessLinkNameMatcher.matches, read_link_target, h]

/-- Witness for C4, evaluating the target-lowercasing clause on a
concrete symlink entry. -/
theorem c4_caseless_normalization_witness :
    ((CaselessLinkNameMatcher.mk (Pattern.mk [Token.anyChar])).matches linkEntry
      ctx).fst =
      (Pattern.mk [Token.anyChar]).matches
        (to_lowercase (to_string_lossy [0x61, 0x62, 0x62, 0x62, 0x63])) :=
  c4_caseless_normalization.2.1 (CaselessLinkNameMatcher.mk
    (Pattern.mk [Token.anyChar])) linkEntry [0x61, 0x62, 0x62, 0x62, 0x63] ctx rfl

/-- C5: a pattern error can arise only at construction, exactly when the
wildcard string is syntactically invalid (for example the unterminated
class `[abc`); a successfully constructed matcher's evaluation is a total
function of the stored compiled pattern and the resolver outcome, with no
error outcome. -/
theorem c5_pattern_error_only_at_construction :
    LinkNameMatcher.new "[abc" = none ∧
    CaselessLinkNameMatcher.new "[abc" = none ∧
    (LinkNameMatcher.new "ab?bc").isSome = true ∧
    (∀ p : String, (LinkNameMatcher.new p).isSome = (Pattern.new p).isSome) ∧
    (∀ (m : LinkNameMatcher) (e : DirEntry) (io1 : MatcherIO),
      m.matches e io1 =
        ((match (read_link_target e).fst with
          | some t => m.pattern.matches (to_string_lossy t)
          | none => false),
         (read_link_target e).snd)) ∧
    (∀ (cm : CaselessLinkNameMatcher) (e : DirEntry) (io1 : MatcherIO),
      cm.matches e io1 =
        ((match (read_link_target e).fst with
          | some t => cm.pattern.matches (to_lowercase (to_string_lossy t))
          | none => false),
         (read_link_target e).snd)) := by
  refine ⟨by decide, by decide, by decide,
    fun p => opt_isSome_map LinkNameMatcher.mk (Pattern.new p), ?_, ?_⟩
  · intro m e io1
    cases hr : read_link_target e with
    | mk o out => cases o <;> simp [LinkNameMatcher.matches, hr]
  · intro cm e io1
    cases hr : read_link_target e with
    | mk o out => cases o <;> simp [CaselessLinkNameMatcher.matches, hr]

/-- C6: conversion of a resolved target to text is total: for every byte
sequence, valid or not, evaluation proceeds to the wildcard test on the
lossily converted text, and an invalid byte becomes the replacement
placeholder. -/
theorem c6_lossy_conversion_total (m : LinkNameMatcher)
    (cm : CaselessLinkNameMatcher) (e : DirEntry) (t : PathBuf)
    (io1 : MatcherIO) (h : e.readLink = Except.ok t) :
    (m.matches e io1).fst = m.pattern.matches (to_string_lossy t) ∧
    (cm.matches e io1).fst =
      cm.pattern.matches (to_lowercase (to_string_lossy t)) ∧
    to_string_lossy [0xFF] = "�" := by
  refine ⟨?_, ?_, by decide⟩ <;>
    simp [LinkNameMatcher.matches, CaselessLinkNameMatcher.matches,
      read_link_target, h]

/-- Witness for C6, on a symlink entry whose target is the invalid byte
`0xFF`: the match-one-character pattern still gets evaluated, against the
replacement character. -/
theorem c6_lossy_conversion_total_witness :
    ((LinkNameMatcher.mk (Pattern.mk [Token.anyChar])).matches badBytesEntry
      ctx).fst = (Pattern.mk [Token.anyChar]).matches (to_string_lossy [0xFF]) ∧
    to_string_lossy [0xFF] = "�" := by
  have h := c6_lossy_conversion_total (LinkNameMatcher.mk (Pattern.mk
    [Token.anyChar])) (CaselessLinkNameMatcher.mk (Pattern.mk [Token.anyChar]))
    badBytesEntry [0xFF] ctx rfl
  exact ⟨h.1, h.2.2⟩

/-- C7: `matches` is deterministic and idempotent: whenever the
filesystem read yields the same outcome for the same entry, two
invocations return the same boolean, for either variant; the stored
compiled pattern is immutable by construction of the embedding (`matches`
is a pure function of the matcher value, which it cannot change). -/
theorem c7_matches_idempotent (m : LinkNameMatcher)
    (cm : CaselessLinkNameMatcher) (e1 e2 : DirEntry) (io1 io2 : MatcherIO)
    (h : e1.readLink = e2.readLink) :
    (m.matches e1 io1).fst = (m.matches e2 io2).fst ∧
    (cm.matches e1 io1).fst = (cm.matches e2 io2).fst := by
  cases hr : e2.readLink with
  | ok t =>
    have h2 := h.trans hr
    simp [LinkNameMatcher.matches, CaselessLinkNameMatcher.matches,
      read_link_target, h2, hr]
  | error er =>
    have h2 := h.trans hr
    by_cases hk : er.kind = ErrorKind.invalidInput <;>
      simp [LinkNameMatcher.matches, CaselessLinkNameMatcher.matches,
        read_link_target, h2, hr, hk]

/-- Witness for C7: two invocations on the same symlink entry (under two
different contexts) agree. -/
theorem c7_matches_idempotent_witness :
    (((LinkNameMatcher.mk (Pattern.mk [Token.anySeq])).matches linkEntry
      ctx).fst =
      ((LinkNameMatcher.mk (Pattern.mk [Token.anySeq])).matches linkEntry
        ctx2).fst) ∧
    (((CaselessLinkNameMatcher.mk (Pattern.mk [Token.anySeq])).matches linkEntry
      ctx).fst =
      ((CaselessLinkNameMatcher.mk (Pattern.mk [Token.anySeq])).matches linkEntry
        ctx2).fst) :=
  c7_matches_idempotent (LinkNameMatcher.mk (Pattern.mk [Token.anySeq]))
    (CaselessLinkNameMatcher.mk (Pattern.mk [Token.anySeq])) linkEntry linkEntry
    ctx ctx2 rfl

/-- C8: the caseless matcher is the case-sensitive machinery applied to
lowercased inputs: construction from `p` succeeds exactly when
case-sensitive construction from the lowercased `p` does, and the verdict
equals testing the lowercased target text against that case-sensitive
matcher's pattern (false when no target resolves). -/
theorem c8_caseless_refines_lowercased (p : String) (e : DirEntry)
    (io1 : MatcherIO) :
    (CaselessLinkNameMatcher.new p).isSome =
      (LinkNameMatcher.new (to_lowercase p)).isSome ∧
    (∀ (cm : CaselessLinkNameMatcher) (m : LinkNameMatcher),
      CaselessLinkNameMatcher.new p = some cm →
      LinkNameMatcher.new (to_lowercase p) = some m →
      (cm.matches e io1).fst =
        (match (read_link_target e).fst with
         | some t => m.pattern.matches (to_lowercase (to_string_lossy t))
         | none => false)) := by
  constructor
  · show ((Pattern.new (to_lowercase p)).map _).isSome =
      ((Pattern.new (to_lowercase p)).map _).isSome
    rw [opt_isSome_map, opt_isSome_map]
  · intro cm m h1 h2
    cases hq : Pattern.new (to_lowercase p) with
    | none =>
      rw [show CaselessLinkNameMatcher.new p =
        (Pattern.new (to_lowercase p)).map CaselessLinkNameMatcher.mk from rfl,
        hq] at h1
      exact absurd h1 (by simp)
    | some q =>
      have hcm : cm = CaselessLinkNameMatcher.mk q := by
        rw [show CaselessLinkNameMatcher.new p =
          (Pattern.new (to_lowercase p)).map CaselessLinkNameMatcher.mk from rfl,
          hq] at h1
        simp at h1
        exact h1.symm
      have hm : m = LinkNameMatcher.mk q := by
        rw [show LinkNameMatcher.new (to_lowercase p) =
          (Pattern.new (to_lowercase p)).map LinkNameMatcher.mk from rfl,
          hq] at h2
        simp at h2
        exact h2.symm
      subst hcm
      subst hm
      cases hr : read_link_target e with
      | mk o out => cases o <;> simp [CaselessLinkNameMatcher.matches, hr]

/-- Witness for C8, instantiated with the pattern `AbB?c` and the `abbbc`
symlink entry. -/
theorem c8_caseless_refines_lowercased_witness :
    ((CaselessLinkNameMatcher.mk (Pattern.mk [Token.lit 'a', Token.lit 'b',
      Token.lit 'b', Token.anyChar, Token.lit 'c'])).matches linkEntry ctx).fst =
      (match (read_link_target linkEntry).fst with
       | some t => (Pattern.mk [Token.lit 'a', Token.lit 'b', Token.lit 'b',
           Token.anyChar, Token.lit 'c']).matches
           (to_lowercase (to_string_lossy t))
       | none => false) :=
  (c8_caseless_refines_lowercased "AbB?c" linkEntry ctx).2
    (CaselessLinkNameMatcher.mk (Pattern.mk [Token.lit 'a', Token.lit 'b',
      Token.lit 'b', Token.anyChar, Token.lit 'c']))
    (LinkNameMatcher.mk (Pattern.mk [Token.lit 'a', Token.lit 'b',
      Token.lit 'b', Token.anyChar, Token.lit 'c']))
    (by decide) (by decide)

/-- C9 counterexample: the claim asserts that some pattern string that is
valid as typed is rejected by caseless construction; in fact no such
string exists, because case folding never creates or destroys a wildcard
metacharacter. -/
theorem c9_counterexample :
    ¬ ∃ p : String, (Pattern.new p).isSome = true ∧
      CaselessLinkNameMatcher.new p = none := by
  rintro ⟨p, h1, h2⟩
  rw [← caseless_new_isSome p, h2] at h1
  simp at h1

/-- C9 (amended): construction of the caseless matcher succeeds exactly
when the lowercased pattern string is a syntactically valid wildcard; and
since lowercasing preserves wildcard validity, this holds exactly when
the pattern as typed is valid — no pattern string valid as typed is ever
rejected. -/
theorem c9_caseless_validity (p : String) :
    (CaselessLinkNameMatcher.new p).isSome =
      (Pattern.new (to_lowercase p)).isSome ∧
    (CaselessLinkNameMatcher.new p).isSome = (Pattern.new p).isSome := by
  constructor
  · show ((Pattern.new (to_lowercase p)).map _).isSome = _
    rw [opt_isSome_map]
  · exact caseless_new_isSome p

/-- C10: the verdict (and the diagnostic output) of `matches` is
independent of the evaluation-context argument, for both variants: the
matchers accept the context but never read or write it. -/
theorem c10_context_independence (m : LinkNameMatcher)
    (cm : CaselessLinkNameMatcher) (e : DirEntry) (io1 io2 : MatcherIO) :
    m.matches e io1 = m.matches e io2 ∧ cm.matches e io1 = cm.matches e io2 :=
  ⟨rfl, rfl⟩

end LName
